import Mathlib

/-!
Verification development for the QuestLog application core
(`src/main.py`, `src/database/models.py`).

The Python handlers are shallowly embedded as pure Lean functions over an
explicit store state (`DB`).  SQLAlchemy rows become Lean structures, the
session becomes explicit state passing, `first()` on an unordered query is
modelled as the first matching element of the insertion-ordered row list,
and handlers that can raise an uncaught Python exception return an
`Except String _` response component (the store component records what was
committed before the exception point).
-/

namespace QuestLog

/-- Calendar date, abstracted as an integer day index.  The Python code only
ever (a) compares the `.date()` parts of two datetimes for equality and
(b) adds a whole number of days to `now`, so an abstract integer day index
is a faithful carrier for both uses. -/
abbrev Date := Int

/-- Model of a Python naive `datetime`: a calendar date plus a
time-of-day component (opaque tick count, only used to distinguish
datetimes that share a date). -/
structure PyDateTime where
  date : Date
  tod : Nat := 0
deriving DecidableEq, Repr

/-- Python `t + timedelta(days := k)`: shifts the calendar date, keeps the time of
day (naive datetimes, no DST). -/
def PyDateTime.addDays (t : PyDateTime) (k : Nat) : PyDateTime :=
  { t with date := t.date + k }

/-- Row of the `quests` table (`src/database/models.py`).  `category` is
nullable in the schema but every creation site in `main.py` supplies a
string, so it is modelled as `String`. -/
structure Quest where
  id : Nat
  title : String
  description : Option String := none
  category : String
  parent_id : Option Nat := none
  is_completed : Bool := false
  deadline : Option PyDateTime := none
  created_at : PyDateTime
  image_url : Option String := none
  position : Nat := 0
deriving DecidableEq, Repr

/-- Row of the `settings` table (`src/database/models.py`). -/
structure Settings where
  hero_name : String := "Hero"
  theme_name : String := "Cyberpunk"
  xp : Int := 0
  level : Int := 1
  daily_quote : Option String := none
  last_quote_date : Option PyDateTime := none
deriving DecidableEq, Repr

/-- The persistent store: the `quests` table in insertion order, the
(at most one observed) `settings` row as returned by `.first()`, and the
autoincrement counter for fresh quest ids. -/
structure DB where
  quests : List Quest
  settings : Option Settings
  nextId : Nat
deriving DecidableEq, Repr

/-! ### String helpers (kernel-evaluable counterparts of the Python string
operations used by the handlers) -/

/-- Does `hay` start with `needle`? (List-of-chars form.) -/
def startsWithList : List Char → List Char → Bool
  | [], _ => true
  | _ :: _, [] => false
  | a :: as, b :: bs => a == b && startsWithList as bs

/-- Python `needle in hay` substring test on char lists. -/
def subList : List Char → List Char → Bool
  | needle, [] => needle.isEmpty
  | needle, c :: rest => startsWithList needle (c :: rest) || subList needle rest

/-- Split a char list on a separator character (Python `str.split(sep)`). -/
def splitOnChar (sep : Char) : List Char → List (List Char)
  | [] => [[]]
  | c :: rest =>
    let r := splitOnChar sep rest
    if c == sep then [] :: r
    else
      match r with
      | h :: t => (c :: h) :: t
      | [] => [[c]]

/-- Leading run of decimal digits. -/
def takeDigits : List Char → List Char
  | [] => []
  | c :: rest => if c.isDigit then c :: takeDigits rest else []

/-- First maximal run of decimal digits in the text, if any
(Python `re.search(r'\d+', s)`). -/
def firstDigitRun : List Char → Option (List Char)
  | [] => none
  | c :: rest =>
    if c.isDigit then some (c :: takeDigits rest) else firstDigitRun rest

/-- Decimal value of a digit run (Python `int(...)` on a digit string). -/
def digitsToNat (l : List Char) : Nat :=
  l.foldl (fun a c => a * 10 + (c.toNat - 48)) 0

/-- Python `int(s)` restricted to nonempty all-digit strings; anything else
raises `ValueError`, modelled as `none`. -/
def strToNat? (l : List Char) : Option Nat :=
  if l ≠ [] && l.all Char.isDigit then some (digitsToNat l) else none

/-- Python truthiness of an optional form string (`None` and `""` are falsy). -/
def pyTruthy : Option String → Bool
  | none => false
  | some s => !s.isEmpty

/-! ### Dates: `datetime.strptime(s, "%Y-%m-%d")` model -/

/-- Gregorian leap-year test. -/
def isLeap (y : Nat) : Bool :=
  (y % 4 == 0 && y % 100 != 0) || y % 400 == 0

/-- Days in a month, as validated by `datetime`. -/
def daysInMonth (y m : Nat) : Nat :=
  if m == 2 then (if isLeap y then 29 else 28)
  else if m == 4 || m == 6 || m == 9 || m == 11 then 30
  else 31

/-- Proleptic Gregorian ordinal of a calendar date, exactly Python's
`date(y, m, d).toordinal()`: day 1 is 0001-01-01.  The `Date` component
of every `PyDateTime` in the model is this ordinal. -/
def toOrdinal (y m d : Nat) : Date :=
  let yp : Int := (y : Int) - 1
  365 * yp + yp / 4 - yp / 100 + yp / 400 +
    (((List.range (m - 1)).foldl (fun a i => a + daysInMonth y (i + 1)) 0 : Nat) : Int) +
    (d : Int)

/-- Largest representable datetime date: `date(9999, 12, 31).toordinal()`
(= 3652059); `datetime.now() + timedelta(days := n)` raises
`OverflowError` exactly when the resulting date passes this bound. -/
def datetimeMaxOrdinal : Date := toOrdinal 9999 12 31

/-- Year field of `strptime("%Y-...")`: the `%Y` pattern is exactly four
digits (`\d\d\d\d`); the `datetime` constructor then requires
`year >= 1`. -/
def parseYear (l : List Char) : Option Nat :=
  if l.length == 4 && l.all Char.isDigit then
    let y := digitsToNat l
    if 1 ≤ y then some y else none
  else none

/-- Month field of `strptime("...%m...")`: the `%m` pattern is
`1[0-2]|0[1-9]|[1-9]` — one or two digits whose value is 1-12. -/
def parseMonth (l : List Char) : Option Nat :=
  if (l.length == 1 || l.length == 2) && l.all Char.isDigit then
    let m := digitsToNat l
    if 1 ≤ m && m ≤ 12 then some m else none
  else none

/-- Day field of `strptime("...%d")`: the `%d` pattern is
`3[0-1]|[1-2]\d|0[1-9]|[1-9]| [1-9]` — one or two digits whose value is
1-31, or a space followed by a nonzero digit. -/
def parseDay (l : List Char) : Option Nat :=
  match l with
  | [' ', c] => if '1' ≤ c && c ≤ '9' then some (c.toNat - 48) else none
  | _ =>
    if (l.length == 1 || l.length == 2) && l.all Char.isDigit then
      let d := digitsToNat l
      if 1 ≤ d && d ≤ 31 then some d else none
    else none

/-- Model of `datetime.strptime(s, "%Y-%m-%d")`: the two literal dashes
split the input into exactly three dash-free fields, each field must
fully match its directive's pattern (leftover characters are
"unconverted data", a `ValueError`), and the `datetime` constructor then
validates the day against the month length.  Failure (`ValueError`) is
`none`; success is a midnight datetime at the date's ordinal. -/
def parseDate (s : String) : Option PyDateTime :=
  match splitOnChar '-' s.data with
  | [ys, ms, ds] =>
    match parseYear ys, parseMonth ms, parseDay ds with
    | some y, some m, some d =>
      if d ≤ daysInMonth y m then some ⟨toOrdinal y m d, 0⟩ else none
    | _, _, _ => none
  | _ => none

/-! ### IEEE-754 binary64 model

`main.py` computes the progress percentage as
`int((completed_subquests / total_subquests) * 100)`, i.e. a correctly
rounded double division, a correctly rounded double multiplication by the
exact constant 100, then truncation.  Round-to-nearest, ties-to-even at
53 significant bits is implemented exactly over integer fractions; the
modelled computation stays far inside the normal range, so neither
subnormals nor overflow arise. -/

/-- Nearest integer to the fraction `n / d` (`d ≠ 0`), ties to even. -/
def fracRoundHalfEven (n d : Nat) : Nat :=
  let t := n / d
  let r := n % d
  if 2 * r < d then t
  else if d < 2 * r then t + 1
  else if t % 2 = 0 then t else t + 1

/-- Bit length of a natural number, by structural fuel recursion so that
the kernel can evaluate it on large literals. -/
def bitLenAux : Nat → Nat → Nat
  | 0, _ => 0
  | _ + 1, 0 => 0
  | fuel + 1, n => bitLenAux fuel (n / 2) + 1

/-- Number of binary digits of `n` (`0` for `0`). -/
def bitLen (n : Nat) : Nat := bitLenAux n n

/-- Is `2 ^ c ≤ a / b`?  (For `a, b ≥ 1`, with `c : ℤ`.) -/
def le2pow (a b : Nat) (c : Int) : Bool :=
  if 0 ≤ c then b * 2 ^ c.toNat ≤ a else b ≤ a * 2 ^ (-c).toNat

/-- For `a, b ≥ 1`, the unique `e` with `2 ^ e ≤ a / b < 2 ^ (e + 1)`,
found from a bit-length candidate and a local search. -/
def floorLog2Frac (a b : Nat) : Int :=
  let c : Int :=
    if b ≤ a then (bitLen (a / b) : Int) - 1
    else -((bitLen (b / a) : Int))
  if le2pow a b (c + 2) then c + 2
  else if le2pow a b (c + 1) then c + 1
  else if le2pow a b c then c
  else if le2pow a b (c - 1) then c - 1
  else c - 2

/-- Round the fraction `a / b` (`a, b ≥ 1`) to the nearest binary64 value,
returned as mantissa/exponent with value `m * 2 ^ s` and
`2 ^ 52 ≤ m ≤ 2 ^ 53`. -/
def fl64Frac (a b : Nat) : Nat × Int :=
  let e := floorLog2Frac a b
  let s := e - 52
  let nd := if 0 ≤ s then (a, b * 2 ^ s.toNat) else (a * 2 ^ (-s).toNat, b)
  (fracRoundHalfEven nd.1 nd.2, s)

/-- The expression `int((completed / total) * 100)` from `toggle_quest` (main.py line 249)
and `delete_quest` (line 292): correctly rounded double division, then a
correctly rounded double multiplication by 100, then `int()` truncation
(the value is nonnegative, so truncation is floor); `0` when
`total = 0`. -/
def pyProgress (completed total : Nat) : Int :=
  if 0 < total then
    if completed = 0 then 0
    else
      let ms := fl64Frac completed total
      let n2 := ms.1 * 100
      let e2 : Int := (bitLen n2 : Int) - 1 + ms.2
      let s2 := e2 - 52
      let shift := ms.2 - s2
      let m2 := if 0 ≤ shift then n2 * 2 ^ shift.toNat
                else fracRoundHalfEven n2 (2 ^ (-shift).toNat)
      if 0 ≤ s2 then ((m2 * 2 ^ s2.toNat : Nat) : Int)
      else ((m2 / 2 ^ (-s2).toNat : Nat) : Int)
  else 0

/-! ### AI service (src/services/ai.py) -/

/-- Model of `AIService.get_vision_image` (ai.py lines 158-166): a deterministic URL
built from the quest title (URL-encoding of the embedded prompt elided;
no modelled claim inspects the URL's content). -/
def get_vision_image (main_quest : String) : String :=
  "https://image.pollinations.ai/prompt/cyberpunk futuristic vision board style art for goal: "
    ++ main_quest ++ ", cinematic lighting, high quality, 8k"

/-- One AI-returned task triple, as produced by
`AIService.generate_subquests` (ai.py lines 114-124): title, duration
text (the `deadline` key), category. -/
structure Task where
  title : String
  deadline : String
  category : String
deriving DecidableEq, Repr

/-! ### Quest Architect duration parsing (main.py lines 174-196) -/

/-- Day count computed by the `ai_architect` duration heuristic: lowercase
the text, take its first integer (default 1 if none), and multiply by the
factor of the first matching unit keyword in the order
month=30, week=7, day=1, year=365; `0` when no unit keyword occurs. -/
def durationDaysToAdd (s : String) : Nat :=
  let d := s.data.map Char.toLower
  let num := ((firstDigitRun d).map digitsToNat).getD 1
  if subList "month".data d then num * 30
  else if subList "week".data d then num * 7
  else if subList "day".data d then num
  else if subList "year".data d then num * 365
  else 0

/-- The deadline assigned by `ai_architect`: `now + timedelta(days)` when
the computed day count is positive (main.py lines 193-194), otherwise
`None`.  The addition sits inside the `try`/`except Exception` block, so
an `OverflowError` — raised when the resulting date would pass
`datetime.max` (ordinal 3652059), or already by `timedelta` for counts
above 999999999, which land past that bound from any representable
`now` — is swallowed and the deadline also stays `None`. -/
def durationDeadline (now : PyDateTime) (s : String) : Option PyDateTime :=
  let k := durationDaysToAdd s
  if 0 < k then
    if now.date + (k : Int) ≤ datetimeMaxOrdinal then some (now.addDays k) else none
  else none

/-- Modelled from the spec (§4.6): the day offset the specification
prescribes for a duration text — first integer (default 1), times the
factor of the first matching unit keyword checked in the order
month → week → day → year; no offset when no unit keyword matches.
Stated separately from `durationDaysToAdd` so the code can be compared
against the spec's words. -/
def specDurationDays (s : String) : Option Nat :=
  let d := s.data.map Char.toLower
  let num := ((firstDigitRun d).map digitsToNat).getD 1
  if subList "month".data d then some (num * 30)
  else if subList "week".data d then some (num * 7)
  else if subList "day".data d then some num
  else if subList "year".data d then some (num * 365)
  else none

/-! ### Store helpers -/

/-- Replace the first quest whose id is `qid` (the row returned by
`.filter(Quest.id == qid).first()`, mutated in place by the handler). -/
def replaceFirst : List Quest → Nat → Quest → List Quest
  | [], _, _ => []
  | q :: rest, qid, q' =>
    if q.id == qid then q' :: rest else q :: replaceFirst rest qid q'

/-- Delete the first quest whose id is `qid` (`db.delete(quest)`). -/
def removeFirst : List Quest → Nat → List Quest
  | [], _ => []
  | q :: rest, qid =>
    if q.id == qid then rest else q :: removeFirst rest qid

/-- Number of quests whose category is `"Main"`. -/
def countMain (db : DB) : Nat :=
  db.quests.countP (fun q => q.category == "Main")

/-- Insert a quest into a position-sorted list, after every quest with a
smaller-or-equal position (stability: equal positions keep arrival
order). -/
def insertSorted (q : Quest) : List Quest → List Quest
  | [] => [q]
  | r :: rest =>
    if r.position ≤ q.position then r :: insertSorted q rest
    else q :: r :: rest

/-- Sibling display order: ascending `position`, ties broken by insertion
order (`order_by(Quest.position)` over the insertion-ordered rows,
main.py line 76). -/
def sortByPosition (l : List Quest) : List Quest :=
  l.foldl (fun acc q => insertSorted q acc) []

/-- The quests displayed as children of parent `pid`, in display order. -/
def siblingsOf (db : DB) (pid : Nat) : List Quest :=
  sortByPosition (db.quests.filter (fun q => q.parent_id == some pid))

/-! ### Fragment renderer (main.py lines 372-418) -/

/-- Model of `render_quest_card`: the dynamic fields of the card, concatenated in
their order of appearance (the static HTML skeleton is elided; no claim
inspects the card text).  Crashes on a `None` quest are handled at the
call sites. -/
def render_quest_card (now : PyDateTime) (q : Quest) : String :=
  let date_display :=
    match q.deadline with
    | some _ => "date"
    | none =>
      match q.description with
      | some d => if d.isEmpty then "No deadline" else d
      | none => "No deadline"
  let checked_attr := if q.is_completed then "checked" else ""
  let completed_class := if q.is_completed then "completed" else ""
  let is_overdue :=
    match q.deadline with
    | some dl =>
      !q.is_completed && (decide (dl.date < now.date) ||
        (dl.date == now.date && decide (dl.tod < now.tod)))
    | none => false
  let overdue_class := if is_overdue then "overdue" else ""
  q.category ++ "|" ++ completed_class ++ "|" ++ overdue_class ++ "|"
    ++ checked_attr ++ "|" ++ q.title ++ "|" ++ date_display

/-! ### Handlers (main.py)

Fallible handlers return `DB × Except String α`: the store component is
what has been committed when the handler finishes or when an uncaught
exception escapes, the second component is the rendered response or the
exception. -/

/-- The out-of-band fragment data returned by a successful quest toggle:
parent progress percentage, and the level and XP shown in the hero
stats bar. -/
structure ToggleOut where
  progress : Int
  level : Int
  xp : Int
deriving DecidableEq, Repr

/-- Is the handler response an uncaught exception? -/
def isError : Except String α → Bool
  | .error _ => true
  | .ok _ => false

/-- Response payload of a successful handler run, `none` on an uncaught
exception. -/
def okOut : Except String α → Option α
  | .error _ => none
  | .ok a => some a

/-- Handler `toggle_quest` (main.py lines 217-275).  If the quest exists its
completion flag is flipped; completing awards 100 XP, un-completing
revokes 100 XP clamped at 0, and the level is recomputed as
`1 + xp // 500`; the change is committed.  The epilogue recomputes the
parent's progress over the committed state and renders the fragments;
it dereferences `quest.is_completed` (line 254) and `settings.xp`
(line 251) without a guard, so a missing quest or missing settings row
raises an uncaught exception after any commit already made. -/
def toggle_quest (db : DB) (qid : Nat) : DB × Except String ToggleOut :=
  match db.quests.find? (fun q => q.id == qid), db.settings with
  | some quest, some s =>
    let previous_state := quest.is_completed
    let quest' := { quest with is_completed := !quest.is_completed }
    let xp' :=
      if quest'.is_completed && !previous_state then s.xp + 100
      else if !quest'.is_completed && previous_state then max 0 (s.xp - 100)
      else s.xp
    let s' := { s with xp := xp', level := 1 + Int.fdiv xp' 500 }
    let db' := { db with quests := replaceFirst db.quests qid quest', settings := some s' }
    match quest'.parent_id with
    | some pid =>
      match db'.quests.find? (fun r => r.id == pid) with
      | none => (db', .error "AttributeError: parent is None (line 247)")
      | some parent =>
        let total := db'.quests.countP (fun r => r.parent_id == some parent.id)
        let completed :=
          db'.quests.countP (fun r => r.parent_id == some parent.id && r.is_completed)
        (db', .ok ⟨pyProgress completed total, s'.level, s'.xp⟩)
    | none => (db', .ok ⟨0, s'.level, s'.xp⟩)
  | some _, none =>
    (db, .error "AttributeError: settings is None (line 230/236)")
  | none, _ =>
    (db, .error "AttributeError: quest is None (line 251/254)")

/-- Handler `delete_quest` (main.py lines 276-299).  A missing id returns the
empty response without touching the store; otherwise the quest row is
deleted and committed and, when it had a parent, the parent's progress
is recomputed (a dangling parent reference raises at line 247's analogue,
after the commit). -/
def delete_quest (db : DB) (qid : Nat) : DB × Except String String :=
  match db.quests.find? (fun q => q.id == qid) with
  | none => (db, .ok "")
  | some quest =>
    let db' := { db with quests := removeFirst db.quests qid }
    match quest.parent_id with
    | none => (db', .ok "")
    | some pid =>
      match db'.quests.find? (fun r => r.id == pid) with
      | none => (db', .error "AttributeError: parent is None (line 289)")
      | some parent =>
        let total := db'.quests.countP (fun r => r.parent_id == some parent.id)
        let completed :=
          db'.quests.countP (fun r => r.parent_id == some parent.id && r.is_completed)
        (db', .ok (toString (pyProgress completed total) ++ "%"))

/-- Handler `add_quest` (main.py lines 301-323): appends a manual child to the
Main Quest with position = current child count; no Main Quest means an
empty response and no change. -/
def add_quest (db : DB) (title category : String) (now : PyDateTime) : DB × String :=
  match db.quests.find? (fun q => q.category == "Main") with
  | none => (db, "")
  | some mq =>
    let max_pos := db.quests.countP (fun q => q.parent_id == some mq.id)
    let new_quest : Quest :=
      { id := db.nextId, title := title, category := category,
        parent_id := some mq.id, description := some "Manual Entry",
        is_completed := false, created_at := now, position := max_pos }
    ({ db with quests := db.quests ++ [new_quest], nextId := db.nextId + 1 },
      render_quest_card now new_quest)

/-- The quest built for one AI task inside the `ai_architect` loop
(main.py lines 198-204): child of the Main Quest, original duration text
kept in the description, deadline from the duration heuristic, and every
unassigned column at its model default (`position = 0`,
`is_completed = False`). -/
def mkArchitectQuest (mainId : Nat) (now : PyDateTime) (qid : Nat) (t : Task) : Quest :=
  { id := qid, title := t.title, category := t.category,
    parent_id := some mainId,
    description := some ("Duration: " ++ t.deadline),
    deadline := durationDeadline now t.deadline,
    created_at := now }

/-- Handler `ai_architect` (main.py lines 159-215): for each AI-returned task,
create a sub-quest of the current Main Quest; returns the created quests
(whose cards are rendered).  No Main Quest short-circuits to an error
message response with no change. -/
def ai_architect (db : DB) (tasks : List Task) (now : PyDateTime) : DB × List Quest :=
  match db.quests.find? (fun q => q.category == "Main") with
  | none => (db, [])
  | some mq =>
    let newQs := tasks.enum.map (fun p => mkArchitectQuest mq.id now (db.nextId + p.1) p.2)
    ({ db with quests := db.quests ++ newQs, nextId := db.nextId + tasks.length }, newQs)

/-- Handler `cancel_edit_quest` (main.py lines 352-355): renders the read-only
card of the quest; a missing id passes `None` into `render_quest_card`,
which raises at `quest.deadline` (line 374). -/
def cancel_edit_quest (db : DB) (qid : Nat) (now : PyDateTime) : DB × Except String String :=
  match db.quests.find? (fun q => q.id == qid) with
  | none => (db, .error "AttributeError: quest is None (line 374)")
  | some q => (db, .ok (render_quest_card now q))

/-- Handler `update_quest` (main.py lines 357-370): sets the title; a truthy
deadline string is parsed with `strptime("%Y-%m-%d")` where a parse
failure is swallowed (keeping the prior deadline), a falsy one clears the
deadline to `None`; then renders the card.  A missing id skips the
update and raises inside `render_quest_card`. -/
def update_quest (db : DB) (qid : Nat) (title : String) (deadline : Option String)
    (now : PyDateTime) : DB × Except String String :=
  match db.quests.find? (fun q => q.id == qid) with
  | none => (db, .error "AttributeError: quest is None (line 374)")
  | some q =>
    let q' :=
      { q with
        title := title,
        deadline :=
          if pyTruthy deadline then
            match parseDate (deadline.getD "") with
            | some dt => some dt
            | none => q.deadline
          else none }
    ({ db with quests := replaceFirst db.quests qid q' }, .ok (render_quest_card now q'))

/-- Handler `onboarding_submit` (main.py lines 420-454): parses the optional
deadline (invalid input is swallowed to `None`), unconditionally creates
a new quest with category `"Main"`, and creates the default settings row
when none exists. -/
def onboarding_submit (db : DB) (goal : String) (deadline : Option String)
    (now : PyDateTime) : DB :=
  let deadline_dt := if pyTruthy deadline then parseDate (deadline.getD "") else none
  let new_quest : Quest :=
    { id := db.nextId, title := goal, category := "Main",
      deadline := deadline_dt, is_completed := false,
      created_at := now, image_url := some (get_vision_image goal) }
  let settings' :=
    match db.settings with
    | some s => some s
    | none => some ({} : Settings)
  { quests := db.quests ++ [new_quest], settings := settings', nextId := db.nextId + 1 }

/-- Loop body of `reorder_quests` (main.py lines 119-127) for one
`(index, token)` pair: a token shaped `"quest-{id}"` whose id parses and
exists gets `position := index`; `IndexError`/`ValueError` are caught and
skip the token. -/
def reorderStep (acc : DB) (p : Nat × String) : DB :=
  match (splitOnChar '-' p.2.data).get? 1 with
  | none => acc
  | some tok =>
    match strToNat? tok with
    | none => acc
    | some qid =>
      match acc.quests.find? (fun q => q.id == qid) with
      | none => acc
      | some q =>
        { acc with quests := replaceFirst acc.quests qid { q with position := p.1 } }

/-- Handler `reorder_quests` (main.py lines 113-130): each `"quest-{id}"` token
whose id parses assigns `position := index` to that quest; malformed
tokens are skipped. -/
def reorder_quests (db : DB) (items : List String) : DB :=
  (items.enum).foldl reorderStep db

/-- The daily-quote block of `read_root` (main.py lines 74-87): runs only
when a Main Quest exists; compares the UTC calendar date of
`last_quote_date` with today's and refreshes the cached quote (committing
`daily_quote` and `last_quote_date := now`) only when they differ or the
stamp is null.  Returns the settings row afterwards and whether the AI
collaborator was called. -/
def read_root_quote (settings : Settings) (main_quest : Option Quest)
    (now : PyDateTime) (new_quote : String) : Settings × Bool :=
  match main_quest with
  | none => (settings, false)
  | some _ =>
    let today := now.date
    let last_date := settings.last_quote_date.map PyDateTime.date
    if last_date ≠ some today then
      ({ settings with daily_quote := some new_quote, last_quote_date := some now }, true)
    else (settings, false)

/-! ### Store lemmas -/

theorem find_replaceFirst (l : List Quest) (qid : Nat) (q q' : Quest)
    (h : l.find? (fun r => r.id == qid) = some q) (hid : q'.id = q.id) :
    (replaceFirst l qid q').find? (fun r => r.id == qid) = some q' := by
  induction l with
  | nil => simp at h
  | cons a t ih =>
    cases ha : (a.id == qid) with
    | true =>
      simp only [List.find?_cons, ha] at h
      have haq : q = a := by simpa using h.symm
      have hq' : (q'.id == qid) = true := by rw [hid, haq]; exact ha
      simp [replaceFirst, ha, List.find?_cons, hq']
    | false =>
      simp only [List.find?_cons, ha] at h
      simp only [replaceFirst, ha, Bool.false_eq_true, if_false, List.find?_cons]
      exact ih h

theorem settings_replaceFirst (db : DB) (qid : Nat) (q' : Quest) :
    (DB.mk (replaceFirst db.quests qid q') db.settings db.nextId).settings = db.settings := rfl

theorem countP_replaceFirst (p : Quest → Bool) (l : List Quest) (qid : Nat) (q' : Quest)
    (h : ∀ q, l.find? (fun r => r.id == qid) = some q → p q' = p q) :
    (replaceFirst l qid q').countP p = l.countP p := by
  induction l with
  | nil => rfl
  | cons a t ih =>
    cases ha : (a.id == qid) with
    | true =>
      have := h a (by simp [List.find?_cons, ha])
      simp [replaceFirst, ha, List.countP_cons, this]
    | false =>
      have ht : ∀ q, t.find? (fun r => r.id == qid) = some q → p q' = p q := by
        intro q hq
        exact h q (by simp only [List.find?_cons, ha]; exact hq)
      simp [replaceFirst, ha, List.countP_cons, ih ht]

theorem countP_removeFirst_le (p : Quest → Bool) (l : List Quest) (qid : Nat) :
    (removeFirst l qid).countP p ≤ l.countP p := by
  induction l with
  | nil => exact Nat.le_refl _
  | cons a t ih =>
    by_cases ha : (a.id == qid) = true
    · simp only [removeFirst, if_pos ha, List.countP_cons]
      omega
    · simp only [removeFirst, if_neg ha, List.countP_cons]
      omega

theorem insertSorted_of_le (q : Quest) (l : List Quest)
    (h : ∀ r ∈ l, r.position ≤ q.position) :
    insertSorted q l = l ++ [q] := by
  induction l with
  | nil => rfl
  | cons a t ih =>
    have ha : a.position ≤ q.position := h a (List.mem_cons_self a t)
    simp only [insertSorted, if_pos ha, List.cons_append]
    rw [ih (fun r hr => h r (List.mem_cons_of_mem a hr))]

theorem foldl_insertSorted_all_zero (l : List Quest) :
    ∀ acc, (∀ r ∈ l, r.position = 0) → (∀ r ∈ acc, r.position = 0) →
      l.foldl (fun acc q => insertSorted q acc) acc = acc ++ l := by
  induction l with
  | nil => intro acc _ _; simp
  | cons a t ih =>
    intro acc hl hacc
    have ha : a.position = 0 := hl a (List.mem_cons_self a t)
    have hstep : insertSorted a acc = acc ++ [a] := by
      refine insertSorted_of_le a acc (fun r hr => ?_)
      rw [hacc r hr, ha]
    have hacc' : ∀ r ∈ acc ++ [a], r.position = 0 := by
      intro r hr
      rcases List.mem_append.mp hr with h1 | h2
      · exact hacc r h1
      · rw [List.mem_singleton.mp h2, ha]
    simp only [List.foldl_cons, hstep]
    rw [ih (acc ++ [a]) (fun r hr => hl r (List.mem_cons_of_mem a hr)) hacc']
    simp

theorem sortByPosition_all_zero (l : List Quest) (h : ∀ r ∈ l, r.position = 0) :
    sortByPosition l = l := by
  simpa using foldl_insertSorted_all_zero l [] h (by intro r hr; simp at hr)

/-! ### Toggle lemmas -/

/-- Committed store state of a successful `toggle_quest` run: the found
quest's completion flag is flipped and the settings row gets the new XP
(award of 100, or revocation clamped at 0) with the recomputed level. -/
theorem toggle_quest_fst (db : DB) (qid : Nat) (q : Quest) (s : Settings)
    (hq : db.quests.find? (fun r => r.id == qid) = some q)
    (hs : db.settings = some s) :
    (toggle_quest db qid).1 =
      { db with
        quests := replaceFirst db.quests qid { q with is_completed := !q.is_completed },
        settings := some { s with
          xp := if q.is_completed then max 0 (s.xp - 100) else s.xp + 100,
          level := 1 + Int.fdiv (if q.is_completed then max 0 (s.xp - 100) else s.xp + 100) 500 } } := by
  unfold toggle_quest
  rw [hq, hs]
  cases hcb : q.is_completed <;>
    simp only [hcb, Bool.not_false, Bool.not_true, Bool.and_self, Bool.true_and,
      Bool.false_and, Bool.and_false, if_true, if_false] <;>
    split <;> simp_all <;> split <;> simp_all

/-! ### Claim C1: toggle round trip -/

/-- C1 (amended): for a quest present in the store and a settings row
satisfying the store's own invariants (`xp ≥ 0`,
`level = 1 + xp // 500`), toggling the quest twice restores XP and level
exactly, provided the quest is initially incomplete or `xp ≥ 100`.  (The
unamended claim fails when the quest starts completed with `xp < 100`:
the clamp `max(0, xp - 100)` loses the revocation and the re-toggle then
adds a fresh 100 XP — see the counterexample.) -/
theorem toggle_twice_restores_xp_and_level (db : DB) (qid : Nat) (q : Quest) (s : Settings)
    (hq : db.quests.find? (fun r => r.id == qid) = some q)
    (hs : db.settings = some s)
    (hxp : 0 ≤ s.xp)
    (hlvl : s.level = 1 + Int.fdiv s.xp 500)
    (hsafe : q.is_completed = false ∨ 100 ≤ s.xp) :
    ∃ s₂, ((toggle_quest (toggle_quest db qid).1 qid).1).settings = some s₂ ∧
      s₂.xp = s.xp ∧ s₂.level = s.level := by
  have h1 := toggle_quest_fst db qid q s hq hs
  have hq1 : ((toggle_quest db qid).1).quests.find? (fun r => r.id == qid) =
      some { q with is_completed := !q.is_completed } := by
    rw [h1]
    exact find_replaceFirst _ _ _ _ hq rfl
  have hs1 : ((toggle_quest db qid).1).settings =
      some { s with
        xp := if q.is_completed then max 0 (s.xp - 100) else s.xp + 100,
        level := 1 + Int.fdiv (if q.is_completed then max 0 (s.xp - 100) else s.xp + 100) 500 } := by
    rw [h1]
  have h2 := toggle_quest_fst _ qid _ _ hq1 hs1
  rw [h2]
  have hx2 :
      (if ({ q with is_completed := !q.is_completed } : Quest).is_completed then
          max 0 ((if q.is_completed then max 0 (s.xp - 100) else s.xp + 100) - 100)
        else (if q.is_completed then max 0 (s.xp - 100) else s.xp + 100) + 100) = s.xp := by
    cases hc : q.is_completed with
    | false =>
      simp only [hc, Bool.not_false, if_true, Bool.false_eq_true, if_false]
      omega
    | true =>
      have h100 : 100 ≤ s.xp := by
        rcases hsafe with hF | h
        · rw [hc] at hF; exact absurd hF (by simp)
        · exact h
      simp only [hc, Bool.not_true, if_true, Bool.false_eq_true, if_false]
      omega
  refine ⟨_, rfl, ?_, ?_⟩
  · exact hx2
  · show 1 + Int.fdiv _ 500 = s.level
    rw [hx2, hlvl]

def c1db : DB :=
  ⟨[{ id := 1, title := "quest", category := "General", is_completed := true,
      created_at := ⟨0, 0⟩ }],
    some { xp := 0, level := 1 }, 2⟩

/-- C1 counterexample: in a store whose only quest is completed while
`xp = 0` (and `level = 1 + 0 // 500` holds), toggling that quest twice
drives XP from 0 to 100 instead of restoring it: the un-complete step is
clamped to 0 and the re-complete step awards a fresh 100 XP. -/
theorem toggle_twice_cex :
    ((toggle_quest (toggle_quest c1db 1).1 1).1).settings.map Settings.xp = some 100 ∧
      c1db.settings.map Settings.xp = some 0 := by decide

def c1wdb : DB :=
  ⟨[{ id := 1, title := "quest", category := "General", is_completed := false,
      created_at := ⟨0, 0⟩ }],
    some { xp := 0, level := 1 }, 2⟩

/-- Witness for the amended C1 theorem at a concrete store. -/
theorem toggle_twice_witness :
    ((toggle_quest (toggle_quest c1wdb 1).1 1).1).settings.map Settings.xp = some 0 ∧
      ((toggle_quest (toggle_quest c1wdb 1).1 1).1).settings.map Settings.level = some 1 := by
  obtain ⟨s₂, h, hx, hl⟩ := toggle_twice_restores_xp_and_level c1wdb 1
    { id := 1, title := "quest", category := "General", is_completed := false,
      created_at := ⟨0, 0⟩ }
    { xp := 0, level := 1 }
    (by decide) rfl (by decide) (by decide) (Or.inl rfl)
  rw [h]
  simp only [Option.map_some']
  exact ⟨by rw [hx], by rw [hl]⟩

/-! ### Claim C2: Settings invariant -/

/-- The Settings store invariant: XP is a non-negative integer and the
persisted level equals `1 + xp // 500`. -/
def SettingsInv (s : Settings) : Prop :=
  0 ≤ s.xp ∧ s.level = 1 + Int.fdiv s.xp 500

/-- The invariant, on the store's (optional) settings row. -/
def DBSettingsInv (db : DB) : Prop :=
  ∀ s, db.settings = some s → SettingsInv s

/-- C2: the only operations that create or change `Settings.xp` preserve
the Settings invariant.  `toggle_quest` — the sole XP-mutating handler —
preserves it for every store and quest id; in particular the
complete→incomplete direction commits exactly the clamp
`max(0, xp - 100)` and recomputes the level from the new XP in the same
transaction; and `onboarding_submit` only ever installs the default
settings row (`xp = 0`, `level = 1`), which satisfies the invariant. -/
theorem xp_changes_preserve_settings_invariant (db : DB) (qid : Nat)
    (goal : String) (dl : Option String) (now : PyDateTime) :
    (DBSettingsInv db → DBSettingsInv ((toggle_quest db qid).1)) ∧
    (∀ q s, db.quests.find? (fun r => r.id == qid) = some q → db.settings = some s →
      q.is_completed = true →
      ∃ s', ((toggle_quest db qid).1).settings = some s' ∧
        s'.xp = max 0 (s.xp - 100) ∧ s'.level = 1 + Int.fdiv s'.xp 500) ∧
    (DBSettingsInv db → DBSettingsInv (onboarding_submit db goal dl now)) := by
  refine ⟨?_, ?_, ?_⟩
  · intro hinv
    cases hfq : db.quests.find? (fun r => r.id == qid) with
    | none =>
      intro s' hs'
      refine hinv s' ?_
      rw [← hs']
      simp [toggle_quest, hfq]
    | some q =>
      cases hset : db.settings with
      | none =>
        intro s' hs'
        refine hinv s' ?_
        rw [← hs']
        simp [toggle_quest, hfq, hset]
      | some s =>
        have h1 := toggle_quest_fst db qid q s hfq hset
        intro s' hs'
        rw [h1] at hs'
        have hxp : 0 ≤ s.xp := (hinv s hset).1
        cases hs'
        constructor
        · show 0 ≤ if q.is_completed then max 0 (s.xp - 100) else s.xp + 100
          cases q.is_completed <;> simp <;> omega
        · rfl
  · intro q s hfq hset hcomp
    have h1 := toggle_quest_fst db qid q s hfq hset
    rw [hcomp] at h1
    simp only [if_true] at h1
    exact ⟨_, by rw [h1], rfl, rfl⟩
  · intro hinv s' hs'
    unfold onboarding_submit at hs'
    cases hset : db.settings with
    | some s =>
      rw [hset] at hs'
      simp only at hs'
      cases hs'
      exact hinv _ hset
    | none =>
      rw [hset] at hs'
      simp only at hs'
      cases hs'
      exact ⟨by decide, by decide⟩

def c2wdb : DB :=
  ⟨[{ id := 1, title := "quest", category := "General", is_completed := true,
      created_at := ⟨0, 0⟩ }],
    some { xp := 250, level := 1 }, 2⟩

/-- Witness for the C2 theorem: the clamp conjunct applied at a concrete
store with a completed quest and `xp = 250`. -/
theorem xp_changes_preserve_settings_invariant_witness :
    ((toggle_quest c2wdb 1).1).settings.map Settings.xp = some 150 := by
  obtain ⟨s', h, hx, _⟩ := (xp_changes_preserve_settings_invariant c2wdb 1 "g" none ⟨0, 0⟩).2.1
    { id := 1, title := "quest", category := "General", is_completed := true,
      created_at := ⟨0, 0⟩ }
    { xp := 250, level := 1 }
    (by decide) rfl rfl
  rw [h]
  simp only [Option.map_some']
  rw [hx]
  decide

/-! ### Claim C3: missing-entity handling -/

def c3db : DB :=
  ⟨[{ id := 1, title := "quest", category := "General", created_at := ⟨0, 0⟩ }],
    some {}, 2⟩

/-- C3 evidence: toggling a quest id that is not in the store leaves the
persisted state unchanged but raises an uncaught exception
(`quest.is_completed` on `None`, main.py line 254), and cancelling the
edit of a missing id likewise raises inside `render_quest_card`
(line 374) — both are hard failures, contradicting the claim's
"short-circuit to a no-op or an empty response, never a hard failure". -/
theorem missing_quest_toggle_and_cancel_raise :
    (toggle_quest c3db 999).1 = c3db ∧ isError (toggle_quest c3db 999).2 = true ∧
      (cancel_edit_quest c3db 999 ⟨0, 0⟩).1 = c3db ∧
      isError (cancel_edit_quest c3db 999 ⟨0, 0⟩).2 = true := by decide

/-! ### Claim C4: progress percentage -/

set_option maxHeartbeats 6000000 in
/-- C4 (amended): the progress value is `int((K / N) * 100)` computed in
IEEE-754 binary64 arithmetic (`pyProgress`).  It is 0 when there are no
children, and coincides with `floor(100 * K / N)` for every family size
`N ≤ 49` — but not in general: the float computation first deviates at
`N = 50, K = 29` (see the counterexample). -/
theorem progress_matches_floor_up_to_49 :
    (∀ k, pyProgress k 0 = 0) ∧
    (∀ n, n < 50 → ∀ k, k < n + 1 → pyProgress k n = (100 * (k : Int)) / (n : Int)) := by
  constructor
  · intro k; rfl
  · decide

/-- Witness for the C4 theorem: a parent with 3 children, 2 completed,
shows progress 66. -/
theorem progress_matches_floor_witness : pyProgress 2 3 = 66 :=
  (progress_matches_floor_up_to_49.2 3 (by decide) 2 (by decide)).trans (by decide)

def c4db : DB :=
  ⟨({ id := 100, title := "M", category := "Main", created_at := ⟨0, 0⟩ } : Quest) ::
      (List.range 50).map (fun i =>
        { id := i + 1, title := "c", category := "General", parent_id := some 100,
          is_completed := decide (2 ≤ i + 1 ∧ i + 1 ≤ 29), created_at := ⟨0, 0⟩ }),
    some { xp := 2800, level := 6 }, 101⟩

/-- C4 counterexample: completing the 29th of 50 children makes
`toggle_quest` report progress 57, although
`floor(100 * 29 / 50) = 58` — the double rounding of `29 / 50` and the
multiplication by 100 land just below 58 and `int()` truncates. -/
theorem progress_float_cex :
    okOut (toggle_quest c4db 1).2 = some ⟨57, 6, 2900⟩ ∧ (100 * 29 : Int) / 50 = 58 := by
  decide

/-! ### Claim C5: Quest Architect placement -/

/-- C5 (amended): every sub-quest created by a Quest Architect run is a
child of the current Main Quest, but its `position` is the model default
0 (`ai_architect` never assigns a position), not the current child
count.  Consequently the new quests are appended at the end of the
sibling order only when every pre-existing sibling also has position 0
(e.g. when all siblings came from the architect); a sibling with a
positive position — as assigned by manual add — sorts after them.  (See
the counterexample for the unamended append-to-end claim.) -/
theorem architect_children_of_main (db : DB) (tasks : List Task) (now : PyDateTime)
    (mq : Quest)
    (hmq : db.quests.find? (fun q => q.category == "Main") = some mq) :
    (∀ q ∈ (ai_architect db tasks now).2, q.parent_id = some mq.id ∧ q.position = 0) ∧
    ((∀ s ∈ db.quests, s.parent_id = some mq.id → s.position = 0) →
      sortByPosition (((ai_architect db tasks now).1).quests.filter
          (fun q => q.parent_id == some mq.id)) =
        db.quests.filter (fun q => q.parent_id == some mq.id) ++
          (ai_architect db tasks now).2) := by
  constructor
  · intro q hq
    simp only [ai_architect, hmq, List.mem_map] at hq
    obtain ⟨p, _, rfl⟩ := hq
    exact ⟨rfl, rfl⟩
  · intro hzero
    simp only [ai_architect, hmq]
    have hnewpar : ∀ q ∈ tasks.enum.map
        (fun p => mkArchitectQuest mq.id now (db.nextId + p.1) p.2),
        (q.parent_id == some mq.id) = true := by
      intro q hq
      simp only [List.mem_map] at hq
      obtain ⟨p, _, rfl⟩ := hq
      simp [mkArchitectQuest]
    rw [List.filter_append, List.filter_eq_self.mpr hnewpar]
    refine sortByPosition_all_zero _ ?_
    intro r hr
    rcases List.mem_append.mp hr with h1 | h2
    · have hm := List.mem_filter.mp h1
      exact hzero r hm.1 (by simpa using hm.2)
    · simp only [List.mem_map] at h2
      obtain ⟨p, _, rfl⟩ := h2
      rfl

def c5wdb : DB :=
  ⟨[{ id := 1, title := "M", category := "Main", created_at := ⟨0, 0⟩ },
    { id := 2, title := "A", category := "General", parent_id := some 1,
      position := 0, created_at := ⟨0, 0⟩ }],
    some {}, 3⟩

/-- Witness for the amended C5 theorem: with one prior position-0 sibling,
an architect-created quest does land at the end of the sibling order. -/
theorem architect_children_witness :
    sortByPosition (((ai_architect c5wdb [⟨"N", "1 week", "Training"⟩] ⟨0, 0⟩).1).quests.filter
        (fun q => q.parent_id == some 1)) =
      c5wdb.quests.filter (fun q => q.parent_id == some 1) ++
        (ai_architect c5wdb [⟨"N", "1 week", "Training"⟩] ⟨0, 0⟩).2 :=
  (architect_children_of_main c5wdb [⟨"N", "1 week", "Training"⟩] ⟨0, 0⟩
    { id := 1, title := "M", category := "Main", created_at := ⟨0, 0⟩ }
    (by decide)).2 (by decide)

def c5db : DB :=
  ⟨[{ id := 1, title := "M", category := "Main", created_at := ⟨0, 0⟩ },
    { id := 2, title := "A", category := "General", parent_id := some 1,
      position := 0, created_at := ⟨0, 0⟩ },
    { id := 3, title := "B", category := "General", parent_id := some 1,
      position := 1, created_at := ⟨0, 0⟩ }],
    some {}, 4⟩

/-- C5 counterexample: with pre-existing siblings at positions 0 and 1
(as two manual adds produce), the architect-created quest (id 4, default
position 0) sorts *between* them — sibling order [2, 4, 3] — so it is not
placed after all previously existing siblings. -/
theorem architect_append_cex :
    (ai_architect c5db [⟨"N", "1 week", "Training"⟩] ⟨0, 0⟩).2.map Quest.id = [4] ∧
      (siblingsOf ((ai_architect c5db [⟨"N", "1 week", "Training"⟩] ⟨0, 0⟩).1) 1).map Quest.id =
        [2, 4, 3] := by decide

/-! ### Claim C6: deadline update policy -/

/-- C6 (amended): updating an existing quest never raises; a falsy
(absent or empty) deadline field clears the stored deadline to null; but
an invalid non-empty date string is swallowed by the
`except ValueError: pass` and leaves the *prior* deadline in place — it
does not null it (see the counterexample); a valid date string stores the
parsed date. -/
theorem update_deadline_policy (db : DB) (qid : Nat) (title : String)
    (dstr : Option String) (now : PyDateTime) (q : Quest)
    (hq : db.quests.find? (fun r => r.id == qid) = some q) :
    ∃ q', ((update_quest db qid title dstr now).1).quests.find? (fun r => r.id == qid) =
        some q' ∧
      (pyTruthy dstr = false → q'.deadline = none) ∧
      (∀ s, dstr = some s → pyTruthy dstr = true → parseDate s = none →
        q'.deadline = q.deadline) ∧
      (∀ s dt, dstr = some s → pyTruthy dstr = true → parseDate s = some dt →
        q'.deadline = some dt) ∧
      isError ((update_quest db qid title dstr now).2) = false := by
  have hfind : ((update_quest db qid title dstr now).1).quests.find?
      (fun r => r.id == qid) =
      some { q with
        title := title,
        deadline :=
          if pyTruthy dstr then
            match parseDate (dstr.getD "") with
            | some dt => some dt
            | none => q.deadline
          else none } := by
    simp only [update_quest, hq]
    exact find_replaceFirst _ _ _ _ hq rfl
  refine ⟨_, hfind, ?_, ?_, ?_, ?_⟩
  · intro hfalsy
    simp only [hfalsy, Bool.false_eq_true, if_false]
  · intro s hss htruthy hpnone
    subst hss
    simp only [htruthy, if_true, Option.getD_some, hpnone]
  · intro s dt hss htruthy hpsome
    subst hss
    simp only [htruthy, if_true, Option.getD_some, hpsome]
  · simp only [update_quest, hq, isError]

def c6db : DB :=
  ⟨[{ id := 1, title := "q", category := "General", deadline := some ⟨toOrdinal 2024 1 15, 0⟩,
      created_at := ⟨0, 0⟩ }],
    none, 2⟩

/-- C6 counterexample: updating a quest that has a stored deadline with
the invalid date string `"notadate"` leaves the prior deadline in place —
the claim's "leaves the deadline null, not the prior value" fails. -/
theorem update_invalid_keeps_prior_cex :
    ((update_quest c6db 1 "T" (some "notadate") ⟨0, 0⟩).1).quests.map Quest.deadline =
      [some ⟨toOrdinal 2024 1 15, 0⟩] ∧ parseDate "notadate" = none := by decide

/-- Witness for the amended C6 theorem: an absent deadline field clears a
previously stored deadline to null without an error. -/
theorem update_deadline_policy_witness :
    (((update_quest c6db 1 "T" none ⟨0, 0⟩).1).quests.find?
        (fun r => r.id == 1)).map Quest.deadline = some none ∧
      isError ((update_quest c6db 1 "T" none ⟨0, 0⟩).2) = false := by
  obtain ⟨q', hfind, hfalsy, _, _, herr⟩ := update_deadline_policy c6db 1 "T" none ⟨0, 0⟩
    { id := 1, title := "q", category := "General", deadline := some ⟨toOrdinal 2024 1 15, 0⟩,
      created_at := ⟨0, 0⟩ }
    (by decide)
  refine ⟨?_, herr⟩
  rw [hfind]
  simp only [Option.map_some']
  rw [hfalsy rfl]

/-! ### Claim C7: duration heuristic -/

theorem durationDaysToAdd_eq_spec (text : String) :
    durationDaysToAdd text = (specDurationDays text).getD 0 := by
  by_cases h1 : subList "month".data (text.data.map Char.toLower) = true <;>
  by_cases h2 : subList "week".data (text.data.map Char.toLower) = true <;>
  by_cases h3 : subList "day".data (text.data.map Char.toLower) = true <;>
  by_cases h4 : subList "year".data (text.data.map Char.toLower) = true <;>
  simp [durationDaysToAdd, specDurationDays, h1, h2, h3, h4]

/-- C7 (amended): for every duration text, the code's day count agrees
with the spec's formula (`specDurationDays`: first integer, default 1,
times the factor of the first matching unit in the order
month=30 → week=7 → day=1 → year=365), and the created quest's deadline
is `now + that many days` whenever that count is positive and the
resulting date is representable — *except* that a computed day count of 0
(first integer 0, e.g. "0 days") also yields a null deadline, because the
code guards with `if days_to_add > 0`, and a count whose addition to
`now` would pass `datetime.max` yields a null deadline as well, because
the `except Exception` swallows the `OverflowError` (e.g.
"9999999 days"); when no unit matches the deadline is null; in every
case the original duration text is kept verbatim in the description,
prefixed with "Duration: ". -/
theorem architect_duration_refines_spec (now : PyDateTime) (text : String) :
    (specDurationDays text = none → durationDeadline now text = none) ∧
    (∀ k, specDurationDays text = some k → 0 < k →
      now.date + (k : Int) ≤ datetimeMaxOrdinal →
      durationDeadline now text = some (now.addDays k)) ∧
    (∀ k, specDurationDays text = some k → 0 < k →
      datetimeMaxOrdinal < now.date + (k : Int) →
      durationDeadline now text = none) ∧
    (∀ k, specDurationDays text = some k → k = 0 → durationDeadline now text = none) ∧
    specDurationDays "2 weeks" = some 14 ∧
    specDurationDays "1 month" = some 30 ∧
    specDurationDays "10 days" = some 10 ∧
    (specDurationDays "9999999 days" = some 9999999 ∧
      durationDeadline ⟨toOrdinal 2024 1 15, 0⟩ "9999999 days" = none) ∧
    (∀ mid qid t, (mkArchitectQuest mid now qid t).deadline = durationDeadline now t.deadline ∧
      (mkArchitectQuest mid now qid t).description = some ("Duration: " ++ t.deadline)) := by
  refine ⟨?_, ?_, ?_, ?_, by decide, by decide, by decide, by decide, ?_⟩
  · intro hnone
    simp [durationDeadline, durationDaysToAdd_eq_spec, hnone]
  · intro k hk hpos hfit
    simp [durationDeadline, durationDaysToAdd_eq_spec, hk, hpos, hfit]
  · intro k hk hpos hover
    have hnot : ¬(now.date + (k : Int) ≤ datetimeMaxOrdinal) := not_le.mpr hover
    simp [durationDeadline, durationDaysToAdd_eq_spec, hk, hpos, hnot]
  · intro k hk hzero
    simp [durationDeadline, durationDaysToAdd_eq_spec, hk, hzero]
  · intro mid qid t
    exact ⟨rfl, rfl⟩

/-- C7 counterexample: the duration text "0 days" matches the unit "day"
with first integer 0, so the claim's formula prescribes a deadline offset
of 0 days from now — but the code's `if days_to_add > 0` guard leaves the
deadline null instead. -/
theorem architect_duration_cex :
    durationDeadline ⟨0, 0⟩ "0 days" = none ∧ specDurationDays "0 days" = some 0 := by
  decide

/-- Witness for the amended C7 theorem: "2 weeks" gives a 14-day offset
from a representable `now`. -/
theorem architect_duration_witness :
    durationDeadline ⟨5, 0⟩ "2 weeks" = some (PyDateTime.addDays ⟨5, 0⟩ 14) :=
  (architect_duration_refines_spec ⟨5, 0⟩ "2 weeks").2.1 14 (by decide) (by decide)
    (by decide)

/-! ### Claim C8: daily-quote scheduler -/

/-- C8: on a dashboard load with a Main Quest present, a cached quote
whose stamp has today's UTC calendar date is returned unchanged with no
AI call and no field modified; a differing or null stamp triggers one AI
call and updates both `daily_quote` and `last_quote_date`; with no Main
Quest the quote logic does not run at all. -/
theorem daily_quote_refresh (s : Settings) (mq : Option Quest) (now : PyDateTime)
    (quote : String) :
    (∀ q, mq = some q → s.last_quote_date.map PyDateTime.date = some now.date →
      read_root_quote s mq now quote = (s, false)) ∧
    (∀ q, mq = some q → s.last_quote_date.map PyDateTime.date ≠ some now.date →
      read_root_quote s mq now quote =
        ({ s with daily_quote := some quote, last_quote_date := some now }, true)) ∧
    (mq = none → read_root_quote s mq now quote = (s, false)) := by
  refine ⟨?_, ?_, ?_⟩
  · intro q hmq hsame
    subst hmq
    simp [read_root_quote, hsame]
  · intro q hmq hdiff
    subst hmq
    simp [read_root_quote, hdiff]
  · intro hmq
    subst hmq
    rfl

/-- Witness for the C8 theorem: a same-day stamp keeps the cache (times
of day differ, dates agree), a stale stamp refreshes it. -/
theorem daily_quote_refresh_witness :
    read_root_quote { daily_quote := some "old", last_quote_date := some ⟨7, 3⟩ }
        (some { id := 1, title := "M", category := "Main", created_at := ⟨0, 0⟩ })
        ⟨7, 9⟩ "new" =
      ({ daily_quote := some "old", last_quote_date := some ⟨7, 3⟩ }, false) ∧
    read_root_quote { daily_quote := some "old", last_quote_date := some ⟨6, 0⟩ }
        (some { id := 1, title := "M", category := "Main", created_at := ⟨0, 0⟩ })
        ⟨7, 0⟩ "new" =
      ({ daily_quote := some "new", last_quote_date := some ⟨7, 0⟩ }, true) :=
  ⟨(daily_quote_refresh { daily_quote := some "old", last_quote_date := some ⟨7, 3⟩ }
      (some { id := 1, title := "M", category := "Main", created_at := ⟨0, 0⟩ })
      ⟨7, 9⟩ "new").1 _ rfl (by decide),
    (daily_quote_refresh { daily_quote := some "old", last_quote_date := some ⟨6, 0⟩ }
      (some { id := 1, title := "M", category := "Main", created_at := ⟨0, 0⟩ })
      ⟨7, 0⟩ "new").2.1 _ rfl (by decide)⟩

/-! ### Claim C9: at most one Main Quest -/

theorem mem_replaceFirst_of_ne (l : List Quest) (qid : Nat) (q' r : Quest)
    (hr : r ∈ l) (hne : r.id ≠ qid) : r ∈ replaceFirst l qid q' := by
  induction l with
  | nil => simp at hr
  | cons a t ih =>
    cases ha : (a.id == qid) with
    | true =>
      rcases List.mem_cons.mp hr with rfl | hrt
      · exact absurd (by simpa using ha) hne
      · simp [replaceFirst, ha, List.mem_cons, hrt]
    | false =>
      rcases List.mem_cons.mp hr with rfl | hrt
      · simp [replaceFirst, ha, List.mem_cons]
      · simp only [replaceFirst, ha, Bool.false_eq_true, if_false, List.mem_cons]
        exact Or.inr (ih hrt)

theorem countMain_reorderStep (acc : DB) (p : Nat × String) :
    countMain (reorderStep acc p) = countMain acc := by
  unfold reorderStep
  split
  · rfl
  · split
    · rfl
    · split
      · rfl
      · next q hfq =>
        exact countP_replaceFirst _ _ _ _ (fun q0 h0 => by rw [hfq] at h0; cases h0; rfl)

theorem countMain_foldl_reorderStep (l : List (Nat × String)) :
    ∀ acc, countMain (l.foldl reorderStep acc) = countMain acc := by
  induction l with
  | nil => intro acc; rfl
  | cons a t ih =>
    intro acc
    rw [List.foldl_cons, ih (reorderStep acc a), countMain_reorderStep]

/-- C9 (amended): the number of quests with category "Main" is preserved
by toggle, update and reorder, does not increase under delete, is
preserved by manual add whenever the submitted category is not "Main",
and by a Quest Architect run whenever no AI-supplied task category is
"Main"; `onboarding_submit`, however, *unconditionally* adds a quest with
category "Main", so it establishes the 0-or-1 invariant only when run
from a store with no Main Quest (see the counterexample: a second
onboarding yields two Main quests). -/
theorem at_most_one_main (db : DB) (qid : Nat) (title category goal : String)
    (dstr dl : Option String) (now : PyDateTime) (tasks : List Task)
    (items : List String) :
    countMain ((toggle_quest db qid).1) = countMain db ∧
    countMain ((delete_quest db qid).1) ≤ countMain db ∧
    countMain ((update_quest db qid title dstr now).1) = countMain db ∧
    countMain (reorder_quests db items) = countMain db ∧
    (category ≠ "Main" → countMain ((add_quest db title category now).1) = countMain db) ∧
    ((∀ t ∈ tasks, t.category ≠ "Main") →
      countMain ((ai_architect db tasks now).1) = countMain db) ∧
    (countMain db = 0 → countMain (onboarding_submit db goal dl now) = 1) := by
  refine ⟨?_, ?_, ?_, ?_, ?_, ?_, ?_⟩
  · cases hfq : db.quests.find? (fun r => r.id == qid) with
    | none => simp [toggle_quest, hfq]
    | some q =>
      cases hset : db.settings with
      | none => simp [toggle_quest, hfq, hset]
      | some s =>
        rw [toggle_quest_fst db qid q s hfq hset]
        exact countP_replaceFirst _ _ _ _ (fun q0 h0 => by rw [hfq] at h0; cases h0; rfl)
  · cases hfq : db.quests.find? (fun r => r.id == qid) with
    | none => simp [delete_quest, hfq]
    | some q =>
      have hle := countP_removeFirst_le (fun r => r.category == "Main") db.quests qid
      simp only [delete_quest, hfq]
      split
      · exact hle
      · split
        · exact hle
        · exact hle
  · cases hfq : db.quests.find? (fun r => r.id == qid) with
    | none => simp [update_quest, hfq]
    | some q =>
      simp only [update_quest, hfq]
      exact countP_replaceFirst _ _ _ _ (fun q0 h0 => by rw [hfq] at h0; cases h0; rfl)
  · exact countMain_foldl_reorderStep _ db
  · intro hcat
    cases hmq : db.quests.find? (fun q => q.category == "Main") with
    | none => simp [add_quest, hmq]
    | some mq =>
      simp only [add_quest, hmq, countMain, List.countP_append, List.countP_cons,
        List.countP_nil]
      have : (category == "Main") = false := by
        simpa using hcat
      simp [this]
  · intro htasks
    cases hmq : db.quests.find? (fun q => q.category == "Main") with
    | none => simp [ai_architect, hmq]
    | some mq =>
      simp only [ai_architect, hmq, countMain, List.countP_append]
      have hz : (tasks.enum.map
          (fun p => mkArchitectQuest mq.id now (db.nextId + p.1) p.2)).countP
            (fun q => q.category == "Main") = 0 := by
        rw [List.countP_eq_zero]
        intro a ha
        simp only [List.mem_map] at ha
        obtain ⟨p, hp, rfl⟩ := ha
        have hmem : p.2 ∈ tasks := by
          have := List.mem_enum_iff_getElem?.mp hp
          exact List.getElem?_mem this
        simpa [mkArchitectQuest] using htasks p.2 hmem
      rw [hz]
      omega
  · intro h0
    simp only [onboarding_submit, countMain, List.countP_append, List.countP_cons,
      List.countP_nil]
    have : countMain db = 0 := h0
    simp only [countMain] at this
    rw [this]
    rfl

/-- C9 counterexample: `onboarding_submit` has no first-run guard — run
twice from an empty store it creates two quests with category "Main",
violating the claimed 0-or-1 invariant. -/
theorem at_most_one_main_cex :
    countMain (onboarding_submit (onboarding_submit ⟨[], none, 1⟩ "G" none ⟨0, 0⟩)
      "G2" none ⟨0, 0⟩) = 2 := by decide

/-- Witness for the amended C9 theorem: onboarding from a Main-free store
yields exactly one Main Quest. -/
theorem at_most_one_main_witness :
    countMain (onboarding_submit ⟨[], none, 1⟩ "G" none ⟨0, 0⟩) = 1 :=
  (at_most_one_main ⟨[], none, 1⟩ 0 "t" "c" "G" none none ⟨0, 0⟩ [] []).2.2.2.2.2.2
    (by decide)

/-! ### Claim C10: update touches only title and deadline -/

def c10db : DB :=
  ⟨[{ id := 1, title := "old", description := some "d", category := "Health",
      parent_id := some 9, is_completed := true, deadline := some ⟨toOrdinal 2024 1 15, 0⟩,
      created_at := ⟨3, 4⟩, image_url := some "u", position := 5 },
    { id := 2, title := "other", category := "General", created_at := ⟨0, 0⟩ }],
    some {}, 3⟩

/-- C10: the PUT quest update rewrites only `title` and `deadline` on the
addressed quest — a falsy deadline field clears a previously stored
deadline to null — while category, parent link, completion flag,
position, description, image URL and creation timestamp are kept, the
settings row is untouched, and every other quest row survives
unchanged. -/
theorem update_quest_frame (db : DB) (qid : Nat) (title : String)
    (dstr : Option String) (now : PyDateTime) (q : Quest)
    (hq : db.quests.find? (fun r => r.id == qid) = some q) :
    ∃ q', ((update_quest db qid title dstr now).1).quests.find? (fun r => r.id == qid) =
        some q' ∧
      q'.title = title ∧
      q'.category = q.category ∧
      q'.parent_id = q.parent_id ∧
      q'.is_completed = q.is_completed ∧
      q'.position = q.position ∧
      q'.description = q.description ∧
      q'.image_url = q.image_url ∧
      q'.created_at = q.created_at ∧
      (pyTruthy dstr = false → q'.deadline = none) ∧
      ((update_quest db qid title dstr now).1).settings = db.settings ∧
      ∀ r ∈ db.quests, r.id ≠ qid →
        r ∈ ((update_quest db qid title dstr now).1).quests := by
  have hfind : ((update_quest db qid title dstr now).1).quests.find?
      (fun r => r.id == qid) =
      some { q with
        title := title,
        deadline :=
          if pyTruthy dstr then
            match parseDate (dstr.getD "") with
            | some dt => some dt
            | none => q.deadline
          else none } := by
    simp only [update_quest, hq]
    exact find_replaceFirst _ _ _ _ hq rfl
  refine ⟨_, hfind, rfl, rfl, rfl, rfl, rfl, rfl, rfl, rfl, ?_, ?_, ?_⟩
  · intro hfalsy
    simp only [hfalsy, Bool.false_eq_true, if_false]
  · simp only [update_quest, hq]
  · intro r hr hne
    simp only [update_quest, hq]
    exact mem_replaceFirst_of_ne _ _ _ _ hr hne

/-- Witness for the C10 theorem at a concrete store: the sibling fields of
the updated quest survive and the falsy deadline clears. -/
theorem update_quest_frame_witness :
    (((update_quest c10db 1 "new" none ⟨9, 9⟩).1).quests.find?
        (fun r => r.id == 1)).map Quest.category = some "Health" ∧
      (((update_quest c10db 1 "new" none ⟨9, 9⟩).1).quests.find?
        (fun r => r.id == 1)).map Quest.deadline = some none ∧
      ((update_quest c10db 1 "new" none ⟨9, 9⟩).1).settings = c10db.settings := by
  obtain ⟨q', hfind, _, hcat, _, _, _, _, _, _, hdl, hset, _⟩ :=
    update_quest_frame c10db 1 "new" none ⟨9, 9⟩
      { id := 1, title := "old", description := some "d", category := "Health",
        parent_id := some 9, is_completed := true, deadline := some ⟨toOrdinal 2024 1 15, 0⟩,
        created_at := ⟨3, 4⟩, image_url := some "u", position := 5 }
      (by decide)
  refine ⟨?_, ?_, hset⟩
  · rw [hfind]
    simp only [Option.map_some']
    rw [hcat]
  · rw [hfind]
    simp only [Option.map_some']
    rw [hdl rfl]

end QuestLog
